import Mathlib

/-!
Verification of the Multi-Agent AI Travel Advisor pipeline wiring.

This file gives a shallow embedding of the repository's data model and the
operations the checked properties talk about:

* `src/agents/agents.py`  - the specialist-agent factory functions;
* `src/agents/tasks.py`   - the task-descriptor factory functions;
* `src/main.py`           - `create_travel_crew` and the control flow of `main`;
* `src/tools/flight_search_tool.py` - the mock flight generator (price logic);
* `src/tools/hotel_search_tool.py`  - the mock hotel generator (price logic);
* `src/tools/simple_tools.py` and `src/tools/crewai_tools.py` - the keyword
  knowledge lookup.

Randomness in the mock tools is modelled by passing the drawn values in
explicitly (an oracle of draws); Python floats are modelled by exact
rationals.  Python `round(x, n)` is modelled as exact decimal rounding; no
checked property depends on the tie-breaking rule or on binary-float error.
-/

/-! ### String helpers (Python `in`, truthiness) -/

/-- Python substring test `needle in hay` on character lists. -/
def charsContain (needle : List Char) : List Char → Bool
  | [] => needle.isEmpty
  | c :: rest => needle.isPrefixOf (c :: rest) || charsContain needle rest

/-- Python substring test `needle in hay` for strings. -/
def strIn (needle hay : String) : Bool :=
  charsContain needle.data hay.data

/-- Python `s.lower()` (ASCII case folding, character by character; equal to
`String.toLower` but defined by structural recursion over the characters). -/
def pyLower (s : String) : String :=
  String.mk (s.data.map Char.toLower)

/-- The string `sub` occurs verbatim (contiguously) inside `s`. -/
def containsVerbatim (s sub : String) : Prop :=
  ∃ p q, s = p ++ sub ++ q

/-- Python truthiness of an optional string (`None` and `""` are falsy). -/
def strTruthy : Option String → Bool
  | none => false
  | some s => !s.isEmpty

/-! ### Data model: agents, task descriptors, crew (crewai `Agent`/`Task`/`Crew`
as configured by this repository) -/

/-- A specialist unit: the fields this repository sets when constructing a
crewai `Agent`.  Tools are referenced by name; every call site in `src/main.py`
passes the empty tool list. -/
structure Agent where
  role : String
  goal : String
  backstory : String
  tools : List String
  verbose : Bool
  allow_delegation : Bool
  max_iter : Option Nat

/-- A task descriptor: the fields this repository sets when constructing a
crewai `Task`.  `context` holds the upstream task descriptors whose results
are fed to this task. -/
structure TravelTask where
  description : String
  expected_output : String
  agent : Agent
  context : List TravelTask

/-- The crewai execution mode; this repository only uses `sequential`. -/
inductive CrewProcess
  | sequential
  | hierarchical

/-- A crew: the fields this repository sets when constructing a crewai
`Crew` in `create_travel_crew`. -/
structure Crew where
  agents : List Agent
  tasks : List TravelTask
  process : CrewProcess
  verbose : Bool

/-! ### `src/agents/agents.py` - agent factories -/

/-- `create_travel_manager` from `src/agents/agents.py`. -/
def create_travel_manager (tools : List String) : Agent :=
  { role := "Travel Planning Manager"
    goal := "Analyze user travel requests, break them down into specific requirements, and coordinate specialized agents to create comprehensive travel plans. Ensure all aspects of the trip are covered: flights, accommodation, activities, and logistics."
    backstory := "You are a seasoned travel planning expert with 15 years of experience organizing complex trips worldwide. You have a talent for understanding what travelers really want, even when they don\x27t articulate it fully. You know how to delegate tasks to specialists and synthesize their findings into cohesive plans. You\x27re detail-oriented, organized, and always think about the traveler\x27s experience holistically."
    tools := tools
    verbose := true
    allow_delegation := true
    max_iter := some 15 }

/-- `create_flight_agent` from `src/agents/agents.py`. -/
def create_flight_agent (tools : List String) : Agent :=
  { role := "Flight Research Specialist"
    goal := "Find the best flight options based on traveler preferences, budget, and schedule. Consider factors like price, duration, layovers, airline quality, and departure times. Provide detailed comparisons and recommendations."
    backstory := "You are a flight booking expert who has worked for major airlines and travel agencies for over a decade. You understand airline pricing strategies, know the best booking times, and can spot great deals. You\x27re familiar with every major airport, common routes, and layover logistics. You always consider the traveler\x27s comfort and preferences, not just the cheapest option."
    tools := tools
    verbose := true
    allow_delegation := false
    max_iter := none }

/-- `create_accommodation_agent` from `src/agents/agents.py`. -/
def create_accommodation_agent (tools : List String) : Agent :=
  { role := "Accommodation Specialist"
    goal := "Research and recommend the best accommodations based on traveler preferences, budget, location requirements, and amenities. Consider factors like neighborhood safety, proximity to attractions, and property ratings."
    backstory := "You are a hospitality industry veteran with extensive knowledge of hotels, resorts, boutique properties, and vacation rentals worldwide. You\x27ve personally inspected hundreds of properties and can match travelers with their ideal accommodations. You understand that where someone stays can make or break their trip, so you pay attention to details like neighborhood character, walkability, and local amenities. You read reviews critically and know what red flags to watch for."
    tools := tools
    verbose := true
    allow_delegation := false
    max_iter := none }

/-- `create_activity_agent` from `src/agents/agents.py`. -/
def create_activity_agent (tools : List String) : Agent :=
  { role := "Activities & Experiences Curator"
    goal := "Discover and recommend activities, tours, attractions, and unique experiences that match the traveler\x27s interests. Create a balanced mix of must-see sights, hidden gems, and memorable experiences. Consider pacing and avoid over-scheduling."
    backstory := "You are a local experiences expert and cultural enthusiast who has explored over 100 countries. You have connections with local tour guides, know the best times to visit popular attractions to avoid crowds, and can uncover authentic experiences that most tourists miss. You\x27re passionate about food culture, history, art, and adventure. You understand that the best trips balance iconic sights with genuine local experiences. You know how to pace a day so travelers don\x27t get exhausted."
    tools := tools
    verbose := true
    allow_delegation := false
    max_iter := none }

/-- `create_logistics_agent` from `src/agents/agents.py`. -/
def create_logistics_agent (tools : List String) : Agent :=
  { role := "Travel Logistics Coordinator"
    goal := "Plan all ground transportation between destinations and within cities. Determine the best methods to get from airports to hotels, between cities, and around town. Optimize for convenience, cost, and traveler preferences."
    backstory := "You are a logistics expert specializing in travel transportation. You know train systems, bus routes, car rental policies, and ride-sharing services in cities around the world. You understand border crossing procedures, luggage policies, and how long transfers realistically take. You\x27ve navigated complex multi-city itineraries and know how to build in buffer time. You think about practical details like: Can elderly travelers manage this route? Is luggage storage available? Are there strikes or construction affecting transit?"
    tools := tools
    verbose := true
    allow_delegation := false
    max_iter := none }

/-- `create_itinerary_compiler_agent` from `src/agents/agents.py`. -/
def create_itinerary_compiler_agent (tools : List String) : Agent :=
  { role := "Itinerary Compiler & Optimizer"
    goal := "Synthesize all research from specialist agents into a comprehensive, day-by-day itinerary. Ensure logical flow, optimal timing, geographic efficiency, and a balanced pace. Create a beautiful, easy-to-follow plan."
    backstory := "You are a master travel planner known for creating perfectly orchestrated itineraries. You have an eye for detail and spatial awareness - you group activities by neighborhood to minimize transit time. You understand the rhythm of travel: when to have early starts vs. leisurely mornings, when to have a big day vs. downtime. You create itineraries that are ambitious yet realistic, with built-in flexibility. Your itineraries read like a story, building excitement throughout the trip. You include all practical details: addresses, opening hours, booking links, and insider tips."
    tools := tools
    verbose := true
    allow_delegation := false
    max_iter := none }

/-- `create_travel_knowledge_agent` from `src/agents/agents.py`. -/
def create_travel_knowledge_agent (tools : List String) : Agent :=
  { role := "Travel Knowledge Expert"
    goal := "Provide expert travel advice, cultural insights, visa requirements, packing tips, and destination-specific knowledge by searching the comprehensive travel knowledge base. Answer questions about customs, etiquette, best practices, and travel planning."
    backstory := "You are a travel encyclopedia with deep knowledge of destinations worldwide. You\x27ve studied cultural norms, visa policies, travel advisories, and practical tips for hundreds of countries. You stay updated on entry requirements, health recommendations, and seasonal considerations. When other agents need specific information about a destination - like tipping culture, appropriate dress codes, or local customs - they come to you. You provide accurate, well-researched information that helps travelers prepare properly and avoid cultural faux pas."
    tools := tools
    verbose := true
    allow_delegation := false
    max_iter := none }

/-! ### `src/agents/tasks.py` - task-descriptor factories -/

/-- `create_planning_task` from `src/agents/tasks.py`: the user request is
interpolated into the fixed description template. -/
def create_planning_task (agent : Agent) (user_request : String) : TravelTask :=
  { description :=
      "Analyze this travel request and break it down into specific requirements:\n\n"
      ++ user_request ++
      "\n\nExtract and clarify:\n1. Destination(s) - which cities/countries\n2. Duration - how many days/nights\n3. Travel dates or timeframe\n4. Number of travelers and any special requirements\n5. Budget level (luxury, mid-range, budget)\n6. Key interests and priorities (food, history, art, adventure, relaxation, etc.)\n7. Any specific requirements mentioned (dietary, accessibility, etc.)\n\nCreate a high-level planning framework that other agents will use."
    expected_output := "A structured breakdown of the travel requirements including destinations, duration, dates, traveler profile, budget level, interests, and any special requirements. Include a suggested high-level itinerary structure (e.g., \x273 days Rome, 2 days Florence, 3 days Venice\x27)."
    agent := agent
    context := [] }

/-- `create_flight_research_task` from `src/agents/tasks.py`.  The
`planning_context` parameter is annotated `Optional[str]` in the source but
`src/main.py` passes the planning `Task`; `context=[planning_context] if
planning_context else []`. -/
def create_flight_research_task (agent : Agent) (planning_context : Option TravelTask) : TravelTask :=
  { description := "Based on the travel plan, research and recommend flight options.\n\nFind flights that:\n1. Match the departure dates and destinations\n2. Fit the budget level (economy, business, first class)\n3. Optimize for the best combination of price, duration, and convenience\n4. Consider layovers and total travel time\n\nProvide at least 2-3 options with different price/convenience tradeoffs.\nInclude details on baggage, amenities, and booking recommendations."
    expected_output := "Detailed flight recommendations with at least 3 options including: airlines, flight numbers, departure/arrival times, duration, layovers, prices, baggage allowance, and amenities. Include a clear recommendation for the best option and explain why."
    agent := agent
    context := match planning_context with
      | some t => [t]
      | none => [] }

/-- `create_accommodation_research_task` from `src/agents/tasks.py`. -/
def create_accommodation_research_task (agent : Agent) (planning_context : Option TravelTask) : TravelTask :=
  { description := "Based on the travel plan, research and recommend accommodations.\n\nFor each destination/city in the itinerary:\n1. Find 2-3 hotel/accommodation options\n2. Match the budget level and traveler preferences\n3. Consider location (proximity to attractions, safety, neighborhood character)\n4. Evaluate amenities, ratings, and reviews\n5. Check availability for the specified dates\n\nPrioritize accommodations that enhance the overall trip experience."
    expected_output := "Detailed accommodation recommendations for each city/destination including: hotel names, ratings, prices per night and total, location/neighborhood, distance to main attractions, amenities, room types, cancellation policies, and breakfast inclusion. Include a clear recommendation for each destination."
    agent := agent
    context := match planning_context with
      | some t => [t]
      | none => [] }

/-- `create_activity_research_task` from `src/agents/tasks.py`. -/
def create_activity_research_task (agent : Agent) (planning_context : Option TravelTask) : TravelTask :=
  { description := "Based on the travel plan and traveler interests, curate activities and experiences.\n\nFor each destination:\n1. Identify must-see attractions aligned with traveler interests\n2. Find highly-rated tours and unique experiences\n3. Include a mix of: iconic sights, cultural experiences, food/dining, and hidden gems\n4. Consider pacing - don\x27t over-schedule\n5. Note any activities that need advance booking\n\nCreate enough options for the entire trip duration with some flexibility."
    expected_output := "Comprehensive list of activities, tours, and experiences for each destination including: activity names, categories, durations, prices, ratings, descriptions, what\x27s included, booking requirements, and recommendations for which days they would work best. Organize by destination and interest category."
    agent := agent
    context := match planning_context with
      | some t => [t]
      | none => [] }

/-- `create_logistics_task` from `src/agents/tasks.py`. -/
def create_logistics_task (agent : Agent) (planning_context : Option TravelTask) : TravelTask :=
  { description := "Based on the travel plan, organize all ground transportation and logistics.\n\nPlan transportation for:\n1. Airport to first hotel (and hotel to airport at end)\n2. Between cities (trains, buses, flights, car rental)\n3. Within each city (metro, taxis, walking, bike rentals)\n4. Day trips if applicable\n\nFor each segment provide:\n- Best transportation method and why\n- Estimated cost and duration\n- Booking requirements\n- Practical tips (where to catch train, metro lines, etc.)\n"
    expected_output := "Complete transportation plan covering all logistics including: airport transfers, inter-city transport with schedules and prices, local transportation recommendations for each city, metro/transit tips, and any transport passes worth buying. Include estimated travel times and costs."
    agent := agent
    context := match planning_context with
      | some t => [t]
      | none => [] }

/-- `create_knowledge_consultation_task` from `src/agents/tasks.py`.  Note:
this factory sets no `context` at all (the crewai `Task` default is the empty
context list). -/
def create_knowledge_consultation_task (agent : Agent) (destination : String) : TravelTask :=
  { description :=
      "Provide comprehensive travel knowledge and advice for: "
      ++ destination ++
      "\n\nResearch and provide information on:\n1. Visa requirements and entry procedures\n2. Cultural etiquette and customs\n3. Best time to visit and weather considerations\n4. Currency, payment methods, and tipping practices\n5. Safety tips and travel advisories\n6. Packing recommendations\n7. Local customs and dining etiquette\n8. Any destination-specific tips\n\nUse the travel knowledge base to provide accurate, detailed information."
    expected_output := "Comprehensive travel guide covering visa/entry requirements, cultural etiquette, best times to visit, currency/payment info, safety tips, packing suggestions, local customs, and insider tips. All information should be specific and actionable."
    agent := agent
    context := [] }

/-- `create_itinerary_compilation_task` from `src/agents/tasks.py`: the user
request is interpolated into the description and the context lists the six
upstream tasks in declaration order. -/
def create_itinerary_compilation_task (agent : Agent)
    (planning_task flight_task accommodation_task activity_task logistics_task knowledge_task : TravelTask)
    (user_request : String) : TravelTask :=
  { description :=
      "Create a comprehensive, day-by-day travel itinerary using all research from specialist agents.\n\nOriginal request: "
      ++ user_request ++
      "\n\nYour itinerary must:\n1. Be organized day-by-day with clear structure\n2. Include all flight details (outbound and return)\n3. Show accommodation for each night with check-in/check-out\n4. Schedule activities logically (group by neighborhood, consider timing)\n5. Include all transportation between locations\n6. Build in realistic timing and some flexibility\n7. Note any advance bookings required\n8. Include estimated daily costs\n9. Add insider tips and cultural notes\n10. Provide a budget summary at the end\n\nMake it detailed, easy to follow, and exciting to read!"
    expected_output := "A complete, beautifully formatted day-by-day itinerary including:\n- Trip Overview (destinations, dates, duration)\n- Flight Details (outbound and return)\n- Daily Breakdown with:\n  * Morning/Afternoon/Evening activities\n  * Transportation between activities\n  * Meal recommendations\n  * Estimated timing for each activity\n  * Accommodation details for each night\n- Practical Information (visa, currency, tips, packing)\n- Budget Summary (flights, hotels, activities, food, transport)\n- Pre-Trip Checklist (bookings to make, what to pack)\n\nFormat should be clear, detailed, and ready to use."
    agent := agent
    context := [planning_task, flight_task, accommodation_task, activity_task, logistics_task, knowledge_task] }

/-! ### `src/main.py` - `create_travel_crew` -/

/-- The travel manager agent as constructed in `create_travel_crew`
(`tools=[]`). -/
def travelManagerA : Agent := create_travel_manager []

/-- The flight agent as constructed in `create_travel_crew`. -/
def flightAgentA : Agent := create_flight_agent []

/-- The accommodation agent as constructed in `create_travel_crew`. -/
def accommodationAgentA : Agent := create_accommodation_agent []

/-- The activity agent as constructed in `create_travel_crew`. -/
def activityAgentA : Agent := create_activity_agent []

/-- The logistics agent as constructed in `create_travel_crew`. -/
def logisticsAgentA : Agent := create_logistics_agent []

/-- The knowledge agent as constructed in `create_travel_crew`. -/
def knowledgeAgentA : Agent := create_travel_knowledge_agent []

/-- The itinerary compiler agent as constructed in `create_travel_crew`. -/
def itineraryCompilerA : Agent := create_itinerary_compiler_agent []

/-- The planning task built for request `r` in `create_travel_crew`. -/
def planningTaskOf (r : String) : TravelTask :=
  create_planning_task travelManagerA r

/-- The flight task built for request `r` in `create_travel_crew` (it is
passed the planning task as its context). -/
def flightTaskOf (r : String) : TravelTask :=
  create_flight_research_task flightAgentA (some (planningTaskOf r))

/-- The accommodation task built for request `r` in `create_travel_crew`. -/
def accommodationTaskOf (r : String) : TravelTask :=
  create_accommodation_research_task accommodationAgentA (some (planningTaskOf r))

/-- The activity task built for request `r` in `create_travel_crew`. -/
def activityTaskOf (r : String) : TravelTask :=
  create_activity_research_task activityAgentA (some (planningTaskOf r))

/-- The logistics task built for request `r` in `create_travel_crew`. -/
def logisticsTaskOf (r : String) : TravelTask :=
  create_logistics_task logisticsAgentA (some (planningTaskOf r))

/-- The knowledge task built in `create_travel_crew`; it receives a fixed
destination string and (unlike the other specialist tasks) no context. -/
def knowledgeTaskC : TravelTask :=
  create_knowledge_consultation_task knowledgeAgentA
    "the destinations mentioned in the travel plan"

/-- The compilation task built for request `r` in `create_travel_crew`. -/
def compilationTaskOf (r : String) : TravelTask :=
  create_itinerary_compilation_task itineraryCompilerA
    (planningTaskOf r) (flightTaskOf r) (accommodationTaskOf r)
    (activityTaskOf r) (logisticsTaskOf r) knowledgeTaskC r

/-- `create_travel_crew` from `src/main.py`: the seven agents and the seven
tasks, in the declared order, with the sequential process. -/
def create_travel_crew (user_request : String) : Crew :=
  { agents := [travelManagerA, flightAgentA, accommodationAgentA,
               activityAgentA, logisticsAgentA, knowledgeAgentA,
               itineraryCompilerA]
    tasks := [planningTaskOf user_request, flightTaskOf user_request,
              accommodationTaskOf user_request, activityTaskOf user_request,
              logisticsTaskOf user_request, knowledgeTaskC,
              compilationTaskOf user_request]
    process := CrewProcess.sequential
    verbose := true }

/-! ### `src/main.py` - control flow of `main`

`main` loads the environment, checks `OPENAI_API_KEY`, and only then enters a
single `try` block that builds the crew, runs `crew.kickoff()`, prints the
result, opens `travel_itinerary.md` for writing, performs three separate
writes (header, original-request section, itinerary section), and prints a
saved message; the sole `except` handler prints the error and `main` returns
normally.  Each fallible step is abstracted as an `Except` value.  The write
sequence is non-atomic, exactly as in the source: `open(..., 'w')` creates
the (empty) file before any write, each `f.write` appends one chunk, and the
`with` block closes the file even when a write raises, so a failure mid-way
leaves whatever chunks were already written on disk. -/

/-- Observable outcome of one run of `main` from `src/main.py`.
`fileOnDisk` is the state of `travel_itinerary.md` when `main` returns:
`none` when the file was never created, and `some chunks` when it exists and
holds exactly the listed chunks, in the order they were written. -/
structure MainOutcome where
  printedKeyError : Bool
  crewConstructed : Bool
  kickoffStarted : Bool
  printedRunError : Option String
  fileOpened : Bool
  fileOnDisk : Option (List String)

/-- Control flow of `main` from `src/main.py`: the `OPENAI_API_KEY` guard,
then the `try` block - crew construction, `crew.kickoff()`, printing the
result, `open(output_file, 'w')`, the three `f.write` calls with the chunk
strings of lines 261-263, and the final saved-message print - with its
single top-level `except` handler.  Any step raising sends control to the
handler, with the file state frozen at that point. -/
def mainModel (apiKey : Option String) (selectedRequest : String)
    (buildCrew : Except String Crew) (kick : Crew → Except String String)
    (printResult : Except String Unit) (openFile : Except String Unit)
    (write1 write2 write3 : Except String Unit)
    (printSaved : Except String Unit) : MainOutcome :=
  if strTruthy apiKey = false then
    ⟨true, false, false, none, false, none⟩
  else
    match buildCrew with
    | Except.error e => ⟨false, false, false, some e, false, none⟩
    | Except.ok crew =>
      match kick crew with
      | Except.error e => ⟨false, true, true, some e, false, none⟩
      | Except.ok result =>
        match printResult with
        | Except.error e => ⟨false, true, true, some e, false, none⟩
        | Except.ok _ =>
          match openFile with
          | Except.error e => ⟨false, true, true, some e, false, none⟩
          | Except.ok _ =>
            let chunk1 := "# Travel Itinerary\n\n"
            let chunk2 := "## Original Request\n\n" ++ selectedRequest ++ "\n\n"
            let chunk3 := "## Complete Itinerary\n\n" ++ result ++ "\n"
            match write1 with
            | Except.error e => ⟨false, true, true, some e, true, some []⟩
            | Except.ok _ =>
              match write2 with
              | Except.error e => ⟨false, true, true, some e, true, some [chunk1]⟩
              | Except.ok _ =>
                match write3 with
                | Except.error e => ⟨false, true, true, some e, true, some [chunk1, chunk2]⟩
                | Except.ok _ =>
                  match printSaved with
                  | Except.error e => ⟨false, true, true, some e, true, some [chunk1, chunk2, chunk3]⟩
                  | Except.ok _ => ⟨false, true, true, none, true, some [chunk1, chunk2, chunk3]⟩

/-! ### Pipeline executor (modelled)

The executor that runs the tasks is crewai's `Crew.kickoff`, which is not part
of this repository's sources. -/

/-- Modelled from the spec: the pipeline executor (crewai `Crew.kickoff`, not
under `src/`) assembles, for each task, "the concatenated textual output of
its declared dependencies": given the completed results, the context handed
to a task is the list of its declared dependencies\x27 result strings, in
declaration order. -/
def assembleContext (result : TravelTask → String) (t : TravelTask) : List String :=
  t.context.map result

/-- Modelled from the spec: the executor hands the owning specialist the
task\x27s instruction together with the assembled context and stores the
returned text as the task\x27s result. -/
def runTask (specialist : String → String → String)
    (result : TravelTask → String) (t : TravelTask) : String :=
  specialist t.description (String.intercalate "\n\n" (assembleContext result t))

/-! ### `src/tools/flight_search_tool.py` - `FlightSearchTool` -/

/-- One mock flight record, with the fields built in
`FlightSearchTool._run`. Prices are exact rationals. -/
structure Flight where
  flight_number : String
  airline : String
  origin : String
  destination : String
  departure_date : String
  departure_time : String
  arrival_time : String
  duration : String
  layovers : Nat
  layover_cities : List String
  price_per_person : ℚ
  total_price : ℚ
  cabin_class : String
  baggage : String
  amenities : String

/-- The values drawn from `random` for one flight in
`FlightSearchTool._run`: the chosen airline, the `randint`/`uniform` results
and the sampled layover cities are passed in as an oracle. -/
structure FlightDraw where
  airline : String
  flightNum : Nat
  depHour : Nat
  depMin : String
  arrHour : Nat
  arrMin : String
  durationH : Nat
  durationM : Nat
  layovers : Nat
  layoverCities : List String
  variance : ℚ

/-- Python `round(x, 2)` on exact rationals (tie-breaking modelled as round
half up; no checked property depends on ties). -/
def round2 (x : ℚ) : ℚ := (round (x * 100) : ℤ) / 100

/-- Python `round(x, 1)` on exact rationals. -/
def round1 (x : ℚ) : ℚ := (round (x * 10) : ℤ) / 10

/-- Lookup in a Python dict literal with a default (`d.get(k, default)`),
modelled on an association list in insertion order. -/
def dictGetD (d : List (String × ℚ)) (k : String) (dflt : ℚ) : ℚ :=
  match d.find? (fun kv => kv.1 == k) with
  | some kv => kv.2
  | none => dflt

/-- The `international_keywords` list of
`FlightSearchTool._calculate_base_price`. -/
def internationalKeywords : List String :=
  ["Europe", "Asia", "Africa", "Australia", "Paris", "London", "Tokyo", "Rome"]

/-- The cabin-class multiplier dict of
`FlightSearchTool._calculate_base_price`. -/
def flightClassMultipliers : List (String × ℚ) :=
  [("economy", 1), ("premium_economy", 8/5), ("business", 7/2), ("first", 6)]

/-- `FlightSearchTool._calculate_base_price` from
`src/tools/flight_search_tool.py`. -/
def calculate_base_price (origin destination cabin_class : String) : ℚ :=
  let base : ℚ :=
    if internationalKeywords.any
        (fun kw => strIn (pyLower kw) (pyLower (origin ++ " " ++ destination)))
    then 800 else 300
  base * dictGetD flightClassMultipliers cabin_class 1

/-- Zero-padded two-digit rendering of an hour (Python `f"{h:02d}"`). -/
def fmt02 (n : Nat) : String :=
  (if n < 10 then "0" else "") ++ toString n

/-- The amenities dict of `FlightSearchTool._get_amenities`, looked up with
default `"Standard"`. -/
def flightAmenities (cabin_class : String) : String :=
  match [("economy", "Standard seat, meals for purchase"),
         ("premium_economy", "Extra legroom, complimentary meals and drinks"),
         ("business", "Lie-flat seats, premium meals, lounge access, priority boarding"),
         ("first", "Private suites, gourmet dining, chauffeur service, premium lounge")].find?
      (fun kv => kv.1 == cabin_class) with
  | some kv => kv.2
  | none => "Standard"

/-- One iteration of the flight-generation loop in `FlightSearchTool._run`
(lines building the `flight` dict), with the random draws supplied by `d`.
`_get_layover_cities` returns `[]` when `layovers == 0` and otherwise a
random sample, which is the `layoverCities` draw. -/
def mkFlight (origin destination departure_date : String) (travelers : Nat)
    (cabin_class : String) (base_price : ℚ) (d : FlightDraw) : Flight :=
  { flight_number := (d.airline.take 2).toUpper ++ toString d.flightNum
    airline := d.airline
    origin := origin
    destination := destination
    departure_date := departure_date
    departure_time := fmt02 d.depHour ++ ":" ++ d.depMin
    arrival_time := fmt02 d.arrHour ++ ":" ++ d.arrMin
    duration := toString d.durationH ++ "h " ++ toString d.durationM ++ "m"
    layovers := d.layovers
    layover_cities := if d.layovers = 0 then [] else d.layoverCities
    price_per_person := round2 (base_price * d.variance)
    total_price := round2 (base_price * d.variance * travelers)
    cabin_class := cabin_class
    baggage := if cabin_class ≠ "economy" then "1 checked bag included" else "Carry-on only"
    amenities := flightAmenities cabin_class }

/-- The comparison used by `flights.sort(key=lambda x: x["price_per_person"])`
in `FlightSearchTool._run`. -/
def flightLe (a b : Flight) : Bool :=
  decide (a.price_per_person ≤ b.price_per_person)

/-- The sorted option list built by `FlightSearchTool._run`: three generated
flights, then `flights.sort(key=lambda x: x["price_per_person"])` (a stable
sort, modelled by `mergeSort`).  The rest of `_run` formats exactly this list
in order. -/
def flightOptions (origin destination departure_date : String) (travelers : Nat)
    (cabin_class : String) (draws : Nat → FlightDraw) : List Flight :=
  let base_price := calculate_base_price origin destination cabin_class
  let flights := (List.range 3).map
    (fun i => mkFlight origin destination departure_date travelers cabin_class base_price (draws i))
  flights.mergeSort flightLe

/-! ### `src/tools/hotel_search_tool.py` - `HotelSearchTool` price logic -/

/-- `random.uniform(a, b)` modelled by its draw parameter `t`: for
`t` in `[0, 1]` the result is `a + t * (b - a)`, covering exactly `[a, b]`. -/
def uniformDraw (a b t : ℚ) : ℚ := a + t * (b - a)

/-- The values drawn from `random` that determine one hotel\x27s price in
`HotelSearchTool._run`: the `uniform(min_rating, 5.0)` rating draw and the
`uniform(budget*0.7, budget)` re-draw used when the price exceeds the budget
(both as parameters in `[0, 1]`). The remaining draws (name, type, reviews,
neighborhood, amenities, cancellation, breakfast) do not affect the price. -/
structure HotelDraw where
  ratingDraw : ℚ
  budgetRedraw : ℚ

/-- The `base_prices` dict of `HotelSearchTool._calculate_price`, in
insertion order. -/
def hotelBasePrices : List (String × ℚ) :=
  [("paris", 150), ("london", 160), ("rome", 120), ("tokyo", 130),
   ("new york", 180), ("barcelona", 110), ("dubai", 140)]

/-- The first-matching-city scan of `HotelSearchTool._calculate_price`:
`base = 100`, overridden by the first dict entry whose city name occurs in
`destination.lower()`. -/
def hotelBaseFor (destination : String) : ℚ :=
  match hotelBasePrices.find? (fun kv => strIn kv.1 (pyLower destination)) with
  | some kv => kv.2
  | none => 100

/-- `HotelSearchTool._calculate_price` from `src/tools/hotel_search_tool.py`:
`base * (0.5 + (rating / 5.0) * 1.5)`. -/
def calculate_price (destination : String) (rating : ℚ) : ℚ :=
  hotelBaseFor destination * (1/2 + rating / 5 * (3/2))

/-- The price (before the final `round(..., 2)`) of one hotel generated by
the loop in `HotelSearchTool._run`: draw a rating, price it, and if a budget
is given (and truthy, i.e. nonzero) and the price exceeds it, re-draw the
price from `uniform(budget_per_night * 0.7, budget_per_night)`. -/
def hotelRawPrice (destination : String) (min_rating : ℚ)
    (budget_per_night : Option ℚ) (d : HotelDraw) : ℚ :=
  let rating := round1 (uniformDraw min_rating 5 d.ratingDraw)
  let price := calculate_price destination rating
  match budget_per_night with
  | some b => if b ≠ 0 ∧ price > b then uniformDraw (b * (7/10)) b d.budgetRedraw else price
  | none => price

/-- The five pre-rounding hotel prices generated by `HotelSearchTool._run`
(`for i in range(5)`), with the random draws supplied per iteration. -/
def hotelRawPrices (destination : String) (min_rating : ℚ)
    (budget_per_night : Option ℚ) (draws : Nat → HotelDraw) : List ℚ :=
  (List.range 5).map (fun i => hotelRawPrice destination min_rating budget_per_night (draws i))

/-! ### `src/tools/simple_tools.py` - `get_travel_knowledge` -/

/-- The `knowledge` dict of `get_travel_knowledge` in
`src/tools/simple_tools.py`, in insertion order. -/
def simpleKnowledge : List (String × String) :=
  [("visa", "For US citizens traveling to Europe (Schengen Area): No visa required for stays up to 90 days. ETIAS authorization will be required starting 2024. Always check current requirements before travel."),
   ("currency", "Euro (€) is used in most European countries. Credit cards widely accepted. Notify your bank before traveling. Exchange rate varies, check current rates."),
   ("tipping", "In Europe: 5-10% in restaurants (often service included). Round up taxi fares. Tips appreciated but not mandatory like in US."),
   ("packing", "Essentials: Valid passport (6+ months validity), travel insurance, comfortable walking shoes, layers for varying temperatures, universal power adapter, copies of important documents."),
   ("paris", "Best time: April-June, Sept-Oct. Must-see: Eiffel Tower, Louvre, Notre-Dame. Food: Try bistros, boulangeries. Transport: Metro is efficient. Tips: Learn basic French phrases, many museums closed Tuesdays."),
   ("italy", "Best time: April-June, Sept-Oct. Avoid August (peak tourist). Must-see: Rome (3-4 days), Florence (2-3 days), Venice (2 days). Food: Cappuccino only before 11am, dinner after 8pm. Transport: High-speed trains between cities."),
   ("museums", "Book tickets online in advance for popular museums. Skip-the-line tickets worth it. Many museums offer free/reduced entry on certain days. Arrive early to avoid crowds.")]

/-- The fallback tip appended by `get_travel_knowledge` when no key
matches. -/
def simpleFallback : String :=
  "General tip: Research your destination, respect local customs, stay aware of your surroundings, and purchase travel insurance."

/-- The key-match condition of both knowledge lookups: the key occurs in the
lower-cased query or in the lower-cased destination (`""` when the
destination is absent or empty, per Python truthiness). -/
def knowledgeCond (query : String) (destination : Option String) (key : String) : Bool :=
  strIn key (pyLower query) ||
    strIn key (if strTruthy destination then pyLower (destination.getD "") else "")

/-- The matched entries collected by the loop in `get_travel_knowledge`:
the info strings of the dict entries whose key matches, in dict order. -/
def knowledgeMatches (query : String) (destination : Option String) : List String :=
  (simpleKnowledge.filter (fun kv => knowledgeCond query destination kv.1)).map (fun kv => kv.2)

/-- The final `results` list of `get_travel_knowledge`: the matches, or the
single fallback tip when nothing matched. -/
def knowledgeResults (query : String) (destination : Option String) : List String :=
  let m := knowledgeMatches query destination
  if m.isEmpty then [simpleFallback] else m

/-- `get_travel_knowledge` from `src/tools/simple_tools.py`: header (with the
destination appended when truthy) plus the results joined by blank lines. -/
def get_travel_knowledge (query : String) (destination : Option String) : String :=
  ("Travel Knowledge"
    ++ (if strTruthy destination then " for " ++ destination.getD "" else ""))
    ++ ":\n\n" ++ String.intercalate "\n\n" (knowledgeResults query destination)

/-! ### `src/tools/crewai_tools.py` - `TravelKnowledgeTool._run` -/

/-- The `knowledge` dict of `TravelKnowledgeTool._run` in
`src/tools/crewai_tools.py`, in insertion order. -/
def crewKnowledge : List (String × String) :=
  [("visa", "For US citizens traveling to Europe: No visa required for stays up to 90 days. ETIAS required starting 2024."),
   ("currency", "Euro (€) used in most EU countries. Credit cards widely accepted. Notify your bank before traveling."),
   ("tipping", "Europe: 5-10% in restaurants (often included). Round up taxi fares. Not mandatory like in US."),
   ("packing", "Essentials: Valid passport, travel insurance, comfortable shoes, layers, universal adapter, document copies."),
   ("paris", "Best time: April-June, Sept-Oct. Must-see: Eiffel Tower, Louvre. Transport: Metro efficient. Learn basic French."),
   ("italy", "Best time: April-June, Sept-Oct. Rome (3-4 days), Florence (2-3 days), Venice (2 days). Dinner after 8pm."),
   ("museums", "Book online in advance. Skip-the-line worth it. Many have free/reduced days. Arrive early.")]

/-- The fallback tip of `TravelKnowledgeTool._run`. -/
def crewFallback : String :=
  "Research your destination, respect local customs, stay aware, purchase travel insurance."

/-- The matched entries collected by the loop in `TravelKnowledgeTool._run`. -/
def crewKnowledgeMatches (query : String) (destination : Option String) : List String :=
  (crewKnowledge.filter (fun kv => knowledgeCond query destination kv.1)).map (fun kv => kv.2)

/-- The final `results` list of `TravelKnowledgeTool._run`. -/
def crewKnowledgeResults (query : String) (destination : Option String) : List String :=
  let m := crewKnowledgeMatches query destination
  if m.isEmpty then [crewFallback] else m

/-- `TravelKnowledgeTool._run` from `src/tools/crewai_tools.py`. -/
def travelKnowledgeToolRun (query : String) (destination : Option String) : String :=
  ("📚 Travel Knowledge"
    ++ (if strTruthy destination then " for " ++ destination.getD "" else ""))
    ++ ":\n\n" ++ String.intercalate "\n\n" (crewKnowledgeResults query destination)

/-! ### Theorems -/

/-- C1: in the crew built by `create_travel_crew`, the compilation task\x27s
context list is exactly the six upstream tasks - planning, flight,
accommodation, activity, logistics, knowledge - in the same order in which
they are declared in the crew\x27s task sequence (it equals the first six
entries of the task list). -/
theorem compilation_task_context_order : ∀ r : String,
    (create_travel_crew r).tasks =
      [planningTaskOf r, flightTaskOf r, accommodationTaskOf r, activityTaskOf r,
       logisticsTaskOf r, knowledgeTaskC, compilationTaskOf r] ∧
    (compilationTaskOf r).context =
      [planningTaskOf r, flightTaskOf r, accommodationTaskOf r, activityTaskOf r,
       logisticsTaskOf r, knowledgeTaskC] ∧
    (compilationTaskOf r).context = ((create_travel_crew r).tasks).take 6 :=
  fun _ => ⟨rfl, rfl, rfl⟩

/-- C2 counterexample: in the crew built for the concrete request
"Plan a trip", the knowledge consultation task declares an empty context, so
it does not declare the planning task as a context dependency - the claim
that all five specialist tasks do so is false. -/
theorem knowledge_task_lacks_planning_context :
    knowledgeTaskC.context = [] ∧
    planningTaskOf "Plan a trip" ∉ knowledgeTaskC.context :=
  ⟨rfl, List.not_mem_nil _⟩

/-- C2 amended: four of the five specialist tasks - flight, accommodation,
activity, logistics - declare the planning task as their sole context
dependency; the knowledge task declares no context dependency at all. -/
theorem specialist_tasks_context_wiring : ∀ r : String,
    (flightTaskOf r).context = [planningTaskOf r] ∧
    (accommodationTaskOf r).context = [planningTaskOf r] ∧
    (activityTaskOf r).context = [planningTaskOf r] ∧
    (logisticsTaskOf r).context = [planningTaskOf r] ∧
    knowledgeTaskC.context = [] :=
  fun _ => ⟨rfl, rfl, rfl, rfl, rfl⟩

/-- C3: under the modelled executor, a task\x27s assembled context contains the
verbatim result string of every task it declares as a dependency, and every
string in the assembled context is the result of some declared dependency
(no result of an undeclared task appears). -/
theorem assembled_context_exactly_declared :
    ∀ (result : TravelTask → String) (t : TravelTask),
      (∀ d ∈ t.context, result d ∈ assembleContext result t) ∧
      (∀ s ∈ assembleContext result t, ∃ d ∈ t.context, s = result d) := by
  intro result t
  constructor
  · intro d hd
    exact List.mem_map_of_mem result hd
  · intro s hs
    rcases List.mem_map.mp hs with ⟨d, hd, rfl⟩
    exact ⟨d, hd, rfl⟩

/-- A fixed assignment of results used to witness the executor model. -/
def constResultR : TravelTask → String := fun _ => "PLANNING RESULT"

/-- Witness for C3 at a concrete input: the flight task of the crew declares
the planning task, so the planning result string appears verbatim in the
flight task\x27s assembled context. -/
theorem assembled_context_exactly_declared_witness :
    "PLANNING RESULT" ∈ assembleContext constResultR (flightTaskOf "a Paris trip") :=
  (assembled_context_exactly_declared constResultR (flightTaskOf "a Paris trip")).1
    (planningTaskOf "a Paris trip") (List.mem_singleton.mpr rfl)

/-- C4: the ordered task list of the crew built by `create_travel_crew`
satisfies the pipeline invariant: every task appearing in some task\x27s
context list occurs at a strictly earlier position (it is among the entries
taken before that task). -/
theorem crew_tasks_depend_only_on_earlier :
    ∀ (r : String) (j : Nat) (t : TravelTask),
      ((create_travel_crew r).tasks)[j]? = some t →
      ∀ d ∈ t.context, d ∈ ((create_travel_crew r).tasks).take j := by
  intro r j t ht d hd
  rcases j with _ | (_ | (_ | (_ | (_ | (_ | (_ | n))))))
  · injection (show some (planningTaskOf r) = some t from ht) with h
    subst h
    exact absurd hd (List.not_mem_nil d)
  · injection (show some (flightTaskOf r) = some t from ht) with h
    subst h
    have hdp : d = planningTaskOf r := List.eq_of_mem_singleton hd
    subst hdp
    exact List.mem_cons_self _ _
  · injection (show some (accommodationTaskOf r) = some t from ht) with h
    subst h
    have hdp : d = planningTaskOf r := List.eq_of_mem_singleton hd
    subst hdp
    exact List.mem_cons_self _ _
  · injection (show some (activityTaskOf r) = some t from ht) with h
    subst h
    have hdp : d = planningTaskOf r := List.eq_of_mem_singleton hd
    subst hdp
    exact List.mem_cons_self _ _
  · injection (show some (logisticsTaskOf r) = some t from ht) with h
    subst h
    have hdp : d = planningTaskOf r := List.eq_of_mem_singleton hd
    subst hdp
    exact List.mem_cons_self _ _
  · injection (show some knowledgeTaskC = some t from ht) with h
    subst h
    exact absurd hd (List.not_mem_nil d)
  · injection (show some (compilationTaskOf r) = some t from ht) with h
    subst h
    exact hd
  · exact Option.noConfusion (show (none : Option TravelTask) = some t from ht)

/-- Witness for C4 at a concrete input: in the crew for request "a trip",
the flight task (position 1) declares the planning task, and the planning
task indeed occurs among the earlier entries. -/
theorem crew_tasks_depend_only_on_earlier_witness :
    planningTaskOf "a trip" ∈ ((create_travel_crew "a trip").tasks).take 1 :=
  crew_tasks_depend_only_on_earlier "a trip" 1 (flightTaskOf "a trip") rfl
    (planningTaskOf "a trip") (List.mem_singleton.mpr rfl)

/-- A kickoff stand-in that succeeds with a fixed itinerary string. -/
def kickOkK : Crew → Except String String := fun _ => Except.ok "itinerary"

/-- A fallible step stand-in that succeeds. -/
def stepOk : Except String Unit := Except.ok ()

/-- A fallible step stand-in that raises "disk full". -/
def diskFull : Except String Unit := Except.error "disk full"

/-- C5 counterexample: a concrete run in which the crew is built and
`crew.kickoff()` succeeds but the second `f.write` raises "disk full".  The
top-level handler prints the diagnostic, yet `travel_itinerary.md` exists on
disk, partially written (it holds the header chunk) - so an exception raised
after `open` does leave an itinerary output file, refuting "no itinerary
output file is written from a failed execution (no partial output saved)". -/
theorem write_failure_leaves_output_file :
    (mainModel (some "sk-key") "req" (Except.ok (create_travel_crew "req")) kickOkK
        stepOk stepOk stepOk diskFull stepOk stepOk).printedRunError = some "disk full" ∧
    (mainModel (some "sk-key") "req" (Except.ok (create_travel_crew "req")) kickOkK
        stepOk stepOk stepOk diskFull stepOk stepOk).fileOnDisk =
      some ["# Travel Itinerary\n\n"] ∧
    (mainModel (some "sk-key") "req" (Except.ok (create_travel_crew "req")) kickOkK
        stepOk stepOk stepOk diskFull stepOk stepOk).fileOnDisk ≠ none :=
  ⟨rfl, rfl, fun h => Option.noConfusion h⟩

/-- C5 amended: whenever the top-level handler of `main` prints a diagnostic,
`main` still returns an outcome normally; and if the exception was raised
before the output file was opened (during crew construction, during
`crew.kickoff()`, while printing the result, or in the `open` itself), no
itinerary output file is written.  An exception raised during the writes
leaves a partially written file, and one raised after them leaves the
complete file, so the no-output guarantee is scoped to pre-open failures. -/
theorem run_error_before_open_skips_output_file :
    ∀ (apiKey : Option String) (selectedRequest : String)
      (buildCrew : Except String Crew) (kick : Crew → Except String String)
      (printResult openFile write1 write2 write3 printSaved : Except String Unit)
      (e : String),
      (mainModel apiKey selectedRequest buildCrew kick printResult openFile
          write1 write2 write3 printSaved).printedRunError = some e →
      (mainModel apiKey selectedRequest buildCrew kick printResult openFile
          write1 write2 write3 printSaved).fileOpened = false →
      (mainModel apiKey selectedRequest buildCrew kick printResult openFile
          write1 write2 write3 printSaved).fileOnDisk = none := by
  intro apiKey sr buildCrew kick pr op w1 w2 w3 ps e h hopen
  unfold mainModel at h hopen ⊢
  by_cases hk : strTruthy apiKey = false
  · rw [if_pos hk]
  · rw [if_neg hk] at h hopen ⊢
    cases buildCrew with
    | error e2 => rfl
    | ok crew =>
      cases hkick : kick crew with
      | error e2 => simp [hkick]
      | ok result =>
        cases pr with
        | error e2 => simp [hkick]
        | ok u1 =>
          cases op with
          | error e2 => simp [hkick]
          | ok u2 =>
            cases w1 with
            | error e2 => simp [hkick] at hopen
            | ok u3 =>
              cases w2 with
              | error e2 => simp [hkick] at hopen
              | ok u4 =>
                cases w3 with
                | error e2 => simp [hkick] at hopen
                | ok u5 =>
                  cases ps with
                  | error e2 => simp [hkick] at hopen
                  | ok u6 => simp [hkick] at h

/-- Witness for the amended C5 at a concrete input: crew construction raises
"boom" (so the file was never opened), the handler records the diagnostic,
and no output file exists. -/
theorem run_error_before_open_skips_output_file_witness :
    (mainModel (some "sk-key") "req" (Except.error "boom") kickOkK
        stepOk stepOk stepOk stepOk stepOk stepOk).fileOnDisk = none :=
  run_error_before_open_skips_output_file (some "sk-key") "req" (Except.error "boom")
    kickOkK stepOk stepOk stepOk stepOk stepOk stepOk "boom" rfl rfl

/-- C6: when `OPENAI_API_KEY` is absent from the environment, `main` prints
the key error and returns: no crew (hence no tool, agent or task) is
constructed, `crew.kickoff()` is never started, no run-error diagnostic is
printed, the output file is never opened, and no output file exists. -/
theorem missing_api_key_aborts_before_pipeline :
    ∀ (selectedRequest : String) (buildCrew : Except String Crew)
      (kick : Crew → Except String String)
      (printResult openFile write1 write2 write3 printSaved : Except String Unit),
      mainModel none selectedRequest buildCrew kick printResult openFile
          write1 write2 write3 printSaved =
        ⟨true, false, false, none, false, none⟩ :=
  fun _ _ _ _ _ _ _ _ _ => rfl

/-- C7: for every user request string, the planning task\x27s description and
the compilation task\x27s description both contain the request verbatim as a
substring (the factories interpolate it into their fixed templates). -/
theorem user_request_embedded_in_descriptions :
    ∀ (a : Agent) (r : String) (pt ft act av lt kt : TravelTask),
      containsVerbatim (create_planning_task a r).description r ∧
      containsVerbatim
        (create_itinerary_compilation_task a pt ft act av lt kt r).description r := by
  intro a r pt ft act av lt kt
  exact ⟨⟨_, _, rfl⟩, ⟨_, _, rfl⟩⟩

/-- The flight price comparison is transitive. -/
theorem flightLe_trans : ∀ a b c : Flight, flightLe a b → flightLe b c → flightLe a c := by
  intro a b c h1 h2
  simp only [flightLe, decide_eq_true_eq] at *
  exact le_trans h1 h2

/-- The flight price comparison is total. -/
theorem flightLe_total : ∀ a b : Flight, flightLe a b || flightLe b a := by
  intro a b
  simp only [flightLe, Bool.or_eq_true, decide_eq_true_eq]
  exact le_total _ _

/-- C8: for every input and every outcome of the random draws,
`FlightSearchTool._run` generates exactly three flight options and lists
them in nondecreasing order of price per person. -/
theorem flight_options_three_and_price_sorted :
    ∀ (origin destination departure_date : String) (travelers : Nat)
      (cabin_class : String) (draws : Nat → FlightDraw),
      (flightOptions origin destination departure_date travelers cabin_class draws).length = 3 ∧
      List.Sorted (fun a b : Flight => a.price_per_person ≤ b.price_per_person)
        (flightOptions origin destination departure_date travelers cabin_class draws) := by
  intro o d dd tv cc draws
  constructor
  · simp [flightOptions]
  · have h := List.sorted_mergeSort flightLe_trans flightLe_total
      ((List.range 3).map
        (fun i => mkFlight o d dd tv cc (calculate_base_price o d cc) (draws i)))
    refine List.Pairwise.imp ?_ h
    intro a b hab
    simpa [flightLe] using hab

/-- C9: whenever `HotelSearchTool._run` is called with a positive
`budget_per_night` and the re-draw parameters lie in the unit interval (as
`random.uniform` guarantees), every generated hotel price per night - before
the final rounding to two decimals - is at most the budget: a price that
exceeded the budget is re-drawn from `[0.7 * budget, budget]`. -/
theorem hotel_prices_capped_by_budget :
    ∀ (destination : String) (min_rating b : ℚ) (draws : Nat → HotelDraw),
      0 < b →
      (∀ i, 0 ≤ (draws i).budgetRedraw ∧ (draws i).budgetRedraw ≤ 1) →
      ∀ p ∈ hotelRawPrices destination min_rating (some b) draws, p ≤ b := by
  intro dest mr b draws hb hdr p hp
  rcases List.mem_map.mp hp with ⟨i, _hi, rfl⟩
  unfold hotelRawPrice
  simp only
  split
  · rcases hdr i with ⟨h0, h1⟩
    unfold uniformDraw
    have hstep : (draws i).budgetRedraw * (b - b * (7/10)) ≤ 1 * (b - b * (7/10)) :=
      mul_le_mul_of_nonneg_right h1 (by linarith)
    linarith
  · rename_i hcond
    push_neg at hcond
    exact hcond (ne_of_gt hb)

/-- A constant draw oracle (all draw parameters one half) used as the C9
witness input. -/
def hotelDrawHalf : Nat → HotelDraw := fun _ => ⟨1/2, 1/2⟩

/-- Witness for C9 at a concrete input: searching "paris" hotels with
minimum rating 3 and budget 100, the first generated pre-rounding price is
at most 100. -/
theorem hotel_prices_capped_by_budget_witness :
    hotelRawPrice "paris" 3 (some 100) (hotelDrawHalf 0) ≤ 100 :=
  hotel_prices_capped_by_budget "paris" 3 100 hotelDrawHalf (by norm_num)
    (fun _ => ⟨by norm_num [hotelDrawHalf], by norm_num [hotelDrawHalf]⟩)
    (hotelRawPrice "paris" 3 (some 100) (hotelDrawHalf 0))
    (List.mem_map.mpr ⟨0, by simp, rfl⟩)

/-- A list that falls back to a singleton when empty is never empty. -/
theorem fallback_list_ne_nil (m : List String) (f : String) :
    (if m.isEmpty then [f] else m) ≠ [] := by
  cases m with
  | nil => simp
  | cons a l => simp

/-- C10: the keyword knowledge lookup is total, exact and deterministic, in
both implementations (`get_travel_knowledge` in `src/tools/simple_tools.py`
and `TravelKnowledgeTool._run` in `src/tools/crewai_tools.py`): the result
list is never empty and the final answer string is never empty; the matched
entries are exactly the knowledge-base entries whose key occurs in the
lower-cased query or destination; when nothing matches, the result is the
single general fallback tip; and equal arguments give equal answers (the
lookup is a pure function of its arguments). -/
theorem knowledge_lookup_total_and_exact :
    ∀ (q : String) (d : Option String),
      knowledgeResults q d ≠ [] ∧
      crewKnowledgeResults q d ≠ [] ∧
      get_travel_knowledge q d ≠ "" ∧
      travelKnowledgeToolRun q d ≠ "" ∧
      (∀ s, s ∈ knowledgeMatches q d ↔
        ∃ kv, kv ∈ simpleKnowledge ∧ knowledgeCond q d kv.1 = true ∧ s = kv.2) ∧
      (∀ s, s ∈ crewKnowledgeMatches q d ↔
        ∃ kv, kv ∈ crewKnowledge ∧ knowledgeCond q d kv.1 = true ∧ s = kv.2) ∧
      (knowledgeMatches q d = [] → knowledgeResults q d = [simpleFallback]) ∧
      (crewKnowledgeMatches q d = [] → crewKnowledgeResults q d = [crewFallback]) ∧
      get_travel_knowledge q d = get_travel_knowledge q d ∧
      travelKnowledgeToolRun q d = travelKnowledgeToolRun q d := by
  intro q d
  refine ⟨fallback_list_ne_nil _ _, fallback_list_ne_nil _ _, ?_, ?_, ?_, ?_, ?_, ?_, rfl, rfl⟩
  · intro h
    have hlen := congrArg String.length h
    simp only [get_travel_knowledge, String.length_append] at hlen
    have h16 : ("Travel Knowledge").length = 16 := rfl
    have h3 : (":\n\n").length = 3 := rfl
    have h0 : ("" : String).length = 0 := rfl
    omega
  · intro h
    have hlen := congrArg String.length h
    simp only [travelKnowledgeToolRun, String.length_append] at hlen
    have h18 : ("📚 Travel Knowledge").length = 18 := rfl
    have h3 : (":\n\n").length = 3 := rfl
    have h0 : ("" : String).length = 0 := rfl
    omega
  · intro s
    constructor
    · intro hs
      rcases List.mem_map.mp hs with ⟨kv, hkv, rfl⟩
      rcases List.mem_filter.mp hkv with ⟨hmem, hcond⟩
      exact ⟨kv, hmem, hcond, rfl⟩
    · rintro ⟨kv, hmem, hcond, rfl⟩
      exact List.mem_map_of_mem _ (List.mem_filter.mpr ⟨hmem, hcond⟩)
  · intro s
    constructor
    · intro hs
      rcases List.mem_map.mp hs with ⟨kv, hkv, rfl⟩
      rcases List.mem_filter.mp hkv with ⟨hmem, hcond⟩
      exact ⟨kv, hmem, hcond, rfl⟩
    · rintro ⟨kv, hmem, hcond, rfl⟩
      exact List.mem_map_of_mem _ (List.mem_filter.mpr ⟨hmem, hcond⟩)
  · intro h
    simp [knowledgeResults, h]
  · intro h
    simp [crewKnowledgeResults, h]

/-- Witness for C10 at a concrete input: for a query matching no key and no
destination, the simple lookup returns exactly the general fallback tip. -/
theorem knowledge_lookup_total_and_exact_witness :
    knowledgeResults "no keywords here" none = [simpleFallback] :=
  (knowledge_lookup_total_and_exact "no keywords here" none).2.2.2.2.2.2.1 rfl
